import Mathlib

/-!
Shallow embedding of the ledger engine in
src/oxidized_transactions/src/main.rs.

The Rust program keeps two hash maps: client id to account state, and
client id to a map from transaction id to settlement status.  We embed
both as association lists with Nat keys (u16 and u32 ids carry no
arithmetic here).  The f64 amounts are embedded as exact rationals; the
claims under study are the algebraic balance properties, which the spec
itself scopes as holding within floating-point tolerance.  Handlers that
contain a fallible unwrap are embedded as Option-valued functions, with
none standing for a panic.
-/

namespace OxidizedTransactions

/-- Account state per client, mirroring struct AccountInfo. -/
structure AccountInfo where
  available : ℚ
  held : ℚ
  total : ℚ
  locked : Bool
deriving DecidableEq, Repr

/-- Settlement status per (client, tx), mirroring struct TransactionStatus. -/
structure TransactionStatus where
  amount : ℚ
  deposit : Bool
  dispute : Bool
deriving DecidableEq, Repr

/-- Input record, mirroring struct Transaction as deserialized from csv. -/
structure Transaction where
  trans_type : String
  client : Nat
  id : Nat
  amount : ℚ
deriving DecidableEq, Repr

/-- Association-list lookup, embedding HashMap get. -/
def lookupA {α : Type} : List (Nat × α) → Nat → Option α
  | [], _ => none
  | (k, v) :: rest, key => if key = k then some v else lookupA rest key

/-- Association-list insert-or-replace, embedding HashMap insert. -/
def insertA {α : Type} : List (Nat × α) → Nat → α → List (Nat × α)
  | [], key, val => [(key, val)]
  | (k, v) :: rest, key, val =>
      if key = k then (key, val) :: rest else (k, v) :: insertA rest key val

/-- Association-list removal, embedding HashMap remove. -/
def eraseA {α : Type} : List (Nat × α) → Nat → List (Nat × α)
  | [], _ => []
  | (k, v) :: rest, key =>
      if key = k then eraseA rest key else (k, v) :: eraseA rest key

/-- The two mutable maps threaded through main, as one state record. -/
structure LedgerState where
  accounts : List (Nat × AccountInfo)
  transaction_status : List (Nat × List (Nat × TransactionStatus))
deriving DecidableEq, Repr

/-- The empty maps at the start of main. -/
def initialState : LedgerState := ⟨[], []⟩

/-- Embeds fn does_transaction_exist. -/
def does_transaction_exist (trans_id : Nat)
    (trans_status : Option (List (Nat × TransactionStatus))) : Bool :=
  match trans_status with
  | none => false
  | some m => (lookupA m trans_id).isSome

/-- Embeds fn does_transaction_exist_without_dispute.  The unwraps after
the short-circuit conjunction are unreachable when the left side is
false, so the default false arms are exact. -/
def does_transaction_exist_without_dispute (trans_id : Nat)
    (trans_status : Option (List (Nat × TransactionStatus))) : Bool :=
  does_transaction_exist trans_id trans_status &&
    !(match trans_status with
      | some m =>
        match lookupA m trans_id with
        | some e => e.dispute
        | none => false
      | none => false)

/-- Embeds fn does_transaction_exist_with_dispute. -/
def does_transaction_exist_with_dispute (trans_id : Nat)
    (trans_status : Option (List (Nat × TransactionStatus))) : Bool :=
  does_transaction_exist trans_id trans_status &&
    (match trans_status with
      | some m =>
        match lookupA m trans_id with
        | some e => e.dispute
        | none => false
      | none => false)

/-- Embeds fn does_deposit_transaction_exist_with_dispute. -/
def does_deposit_transaction_exist_with_dispute (trans_id : Nat)
    (trans_status : Option (List (Nat × TransactionStatus))) : Bool :=
  does_transaction_exist_with_dispute trans_id trans_status &&
    (match trans_status with
      | some m =>
        match lookupA m trans_id with
        | some e => e.deposit
        | none => false
      | none => false)

/-- Embeds fn is_client_locked. -/
def is_client_locked (account : Option AccountInfo) : Bool :=
  match account with
  | some a => a.locked
  | none => false

/-- Embeds fn handle_deposit.  No fallible unwrap: both unwraps in the
source sit under an is_none guard on the same lookup, so the function is
total. -/
def handle_deposit (s : LedgerState) (amount : ℚ) (client trans_id : Nat) :
    LedgerState :=
  let trans_status : TransactionStatus := ⟨amount, true, false⟩
  let accounts1 :=
    match lookupA s.accounts client with
    | none =>
        insertA s.accounts client ⟨amount, 0, amount, false⟩
    | some current =>
        insertA s.accounts client
          ⟨current.available + amount, current.held,
           current.held + current.available + amount, false⟩
  let transactions1 :=
    match lookupA s.transaction_status client with
    | none =>
        insertA s.transaction_status client [(trans_id, trans_status)]
    | some m =>
        insertA s.transaction_status client (insertA m trans_id trans_status)
  ⟨accounts1, transactions1⟩

/-- Embeds fn handle_withdrawal.  The unwrap on the transactions sub-map
in the success branch is fallible; none embeds that panic. -/
def handle_withdrawal (s : LedgerState) (amount : ℚ) (client trans_id : Nat) :
    Option LedgerState :=
  let trans_status : TransactionStatus := ⟨amount, false, false⟩
  match lookupA s.accounts client with
  | none => some s
  | some current =>
      if current.available - amount ≥ 0 then
        match lookupA s.transaction_status client with
        | none => none
        | some m =>
            some ⟨insertA s.accounts client
                    ⟨current.available - amount, current.held,
                     current.held + current.available - amount, false⟩,
                  insertA s.transaction_status client
                    (insertA m trans_id trans_status)⟩
      else some s

/-- Embeds fn handle_dispute.  The guard makes the registry unwraps
unreachable; the accounts unwrap is fallible and embeds as none. -/
def handle_dispute (s : LedgerState) (client trans_id : Nat) :
    Option LedgerState :=
  let trans_status := lookupA s.transaction_status client
  if does_transaction_exist_without_dispute trans_id trans_status then
    match lookupA s.accounts client, trans_status with
    | some current, some m =>
        match lookupA m trans_id with
        | some entry =>
            some ⟨insertA s.accounts client
                    ⟨current.available - entry.amount,
                     current.held + entry.amount,
                     current.held + current.available, false⟩,
                  insertA s.transaction_status client
                    (insertA m trans_id ⟨entry.amount, entry.deposit, true⟩)⟩
        | none => none
    | _, _ => none
  else some s

/-- Embeds fn handle_resolve. -/
def handle_resolve (s : LedgerState) (client trans_id : Nat) :
    Option LedgerState :=
  let trans_status := lookupA s.transaction_status client
  if does_transaction_exist_with_dispute trans_id trans_status then
    match lookupA s.accounts client, trans_status with
    | some current, some m =>
        match lookupA m trans_id with
        | some entry =>
            some ⟨insertA s.accounts client
                    ⟨current.available + entry.amount,
                     current.held - entry.amount,
                     current.held + current.available, false⟩,
                  insertA s.transaction_status client
                    (insertA m trans_id ⟨entry.amount, entry.deposit, true⟩)⟩
        | none => none
    | _, _ => none
  else some s

/-- Embeds fn handle_chargeback. -/
def handle_chargeback (s : LedgerState) (client trans_id : Nat) :
    Option LedgerState :=
  let trans_status := lookupA s.transaction_status client
  if does_deposit_transaction_exist_with_dispute trans_id trans_status then
    match lookupA s.accounts client, trans_status with
    | some current, some m =>
        match lookupA m trans_id with
        | some entry =>
            some ⟨insertA s.accounts client
                    ⟨current.available,
                     current.held - entry.amount,
                     current.held + current.available - entry.amount, true⟩,
                  eraseA s.transaction_status client⟩
        | none => none
    | _, _ => none
  else some s

/-- Per-character lowercase of a string, embedding to_lowercase as used
on the ascii type column. -/
def toLowerStr (s : String) : String := String.mk (s.data.map Char.toLower)

/-- Embeds fn handle_record: the validation gate and the dispatch on the
lowercased type string. -/
def handle_record (s : LedgerState) (t : Transaction) : Option LedgerState :=
  let amount := t.amount
  let client := t.client
  let trans_type := toLowerStr t.trans_type
  let trans_id := t.id
  if t.client > 0 ∧ t.id > 0 ∧
      is_client_locked (lookupA s.accounts client) = false then
    if trans_type = "deposit" then
      if amount = 0 then some s
      else some (handle_deposit s amount client trans_id)
    else if trans_type = "withdrawal" then
      if amount = 0 then some s
      else handle_withdrawal s amount client trans_id
    else if trans_type = "dispute" then
      handle_dispute s client trans_id
    else if trans_type = "resolve" then
      handle_resolve s client trans_id
    else if trans_type = "chargeback" then
      handle_chargeback s client trans_id
    else some s
  else some s

/-- One step of the main loop over an optional state; none propagates a
panic. -/
def stepRecord (s : Option LedgerState) (t : Transaction) :
    Option LedgerState :=
  s.bind (fun st => handle_record st t)

/-- The main loop: fold the record stream over the empty maps. -/
def processAll (ts : List Transaction) : Option LedgerState :=
  ts.foldl stepRecord (some initialState)

/-- Lookup of a registry entry for a (client, tx) pair. -/
def lookupTx (s : LedgerState) (client trans_id : Nat) :
    Option TransactionStatus :=
  match lookupA s.transaction_status client with
  | none => none
  | some m => lookupA m trans_id

/-- Balance invariant for one account: the derived total field. -/
def balancedAccount (a : AccountInfo) : Prop :=
  a.total = a.available + a.held

/-- Balance invariant for the whole accounts map. -/
def balancedAccounts (l : List (Nat × AccountInfo)) : Prop :=
  ∀ c a, lookupA l c = some a → balancedAccount a

/-- Structural invariant of reachable states: a registry sub-map implies
an account, and an unlocked account implies a registry sub-map. -/
def alignedState (s : LedgerState) : Prop :=
  (∀ c, (lookupA s.transaction_status c).isSome = true →
    (lookupA s.accounts c).isSome = true) ∧
  (∀ c a, lookupA s.accounts c = some a → a.locked = false →
    (lookupA s.transaction_status c).isSome = true)

lemma lookupA_insertA {α : Type} (l : List (Nat × α)) (k : Nat) (v : α)
    (k' : Nat) :
    lookupA (insertA l k v) k' = if k' = k then some v else lookupA l k' := by
  induction l with
  | nil =>
    by_cases h : k' = k <;> simp [insertA, lookupA, h]
  | cons p rest ih =>
    obtain ⟨pk, pv⟩ := p
    by_cases h1 : k = pk
    · subst h1
      by_cases h2 : k' = k <;> simp [insertA, lookupA, h2]
    · by_cases h2 : k' = pk
      · subst h2
        have hne : ¬ k' = k := fun h => h1 h.symm
        simp [insertA, h1, lookupA, hne]
      · simp [insertA, h1, lookupA, h2, ih]

lemma lookupA_eraseA {α : Type} (l : List (Nat × α)) (k k' : Nat) :
    lookupA (eraseA l k) k' = if k' = k then none else lookupA l k' := by
  induction l with
  | nil =>
    by_cases h : k' = k <;> simp [eraseA, lookupA, h]
  | cons p rest ih =>
    obtain ⟨pk, pv⟩ := p
    by_cases h1 : k = pk
    · subst h1
      by_cases h2 : k' = k
      · subst h2
        simp [eraseA, lookupA, ih]
      · simp [eraseA, lookupA, ih, h2]
    · by_cases h2 : k' = pk
      · subst h2
        have hne : ¬ k' = k := fun h => h1 h.symm
        simp [eraseA, h1, lookupA, hne]
      · simp [eraseA, h1, lookupA, h2, ih]

lemma dtewd_true {m : List (Nat × TransactionStatus)} {tx : Nat}
    {e : TransactionStatus} (he : lookupA m tx = some e)
    (hd : e.dispute = false) :
    does_transaction_exist_without_dispute tx (some m) = true := by
  simp [does_transaction_exist_without_dispute, does_transaction_exist, he, hd]

lemma dtewdis_true {m : List (Nat × TransactionStatus)} {tx : Nat}
    {e : TransactionStatus} (he : lookupA m tx = some e)
    (hd : e.dispute = true) :
    does_transaction_exist_with_dispute tx (some m) = true := by
  simp [does_transaction_exist_with_dispute, does_transaction_exist, he, hd]

lemma ddtewd_true {m : List (Nat × TransactionStatus)} {tx : Nat}
    {e : TransactionStatus} (he : lookupA m tx = some e)
    (hd : e.dispute = true) (hdep : e.deposit = true) :
    does_deposit_transaction_exist_with_dispute tx (some m) = true := by
  simp [does_deposit_transaction_exist_with_dispute, dtewdis_true he hd, he,
    hdep]

lemma dtewd_elim {m? : Option (List (Nat × TransactionStatus))} {tx : Nat}
    (h : does_transaction_exist_without_dispute tx m? = true) :
    ∃ m e, m? = some m ∧ lookupA m tx = some e ∧ e.dispute = false := by
  cases m? with
  | none =>
    simp [does_transaction_exist_without_dispute, does_transaction_exist] at h
  | some m =>
    cases he : lookupA m tx with
    | none =>
      simp [does_transaction_exist_without_dispute, does_transaction_exist,
        he] at h
    | some e =>
      refine ⟨m, e, rfl, he, ?_⟩
      simp [does_transaction_exist_without_dispute, does_transaction_exist,
        he] at h
      exact h

lemma dtewdis_elim {m? : Option (List (Nat × TransactionStatus))} {tx : Nat}
    (h : does_transaction_exist_with_dispute tx m? = true) :
    ∃ m e, m? = some m ∧ lookupA m tx = some e ∧ e.dispute = true := by
  cases m? with
  | none =>
    simp [does_transaction_exist_with_dispute, does_transaction_exist] at h
  | some m =>
    cases he : lookupA m tx with
    | none =>
      simp [does_transaction_exist_with_dispute, does_transaction_exist,
        he] at h
    | some e =>
      refine ⟨m, e, rfl, he, ?_⟩
      simp [does_transaction_exist_with_dispute, does_transaction_exist,
        he] at h
      exact h

lemma ddtewd_elim {m? : Option (List (Nat × TransactionStatus))} {tx : Nat}
    (h : does_deposit_transaction_exist_with_dispute tx m? = true) :
    ∃ m e, m? = some m ∧ lookupA m tx = some e ∧ e.dispute = true ∧
      e.deposit = true := by
  simp only [does_deposit_transaction_exist_with_dispute, Bool.and_eq_true]
    at h
  obtain ⟨m, e, hm, he, hd⟩ := dtewdis_elim h.1
  refine ⟨m, e, hm, he, hd, ?_⟩
  subst hm
  simpa [he] using h.2

lemma handle_deposit_accounts_new {s : LedgerState} {client : Nat}
    (amount : ℚ) (tx : Nat) (h : lookupA s.accounts client = none) :
    (handle_deposit s amount client tx).accounts =
      insertA s.accounts client ⟨amount, 0, amount, false⟩ := by
  simp [handle_deposit, h]

lemma handle_deposit_accounts_old {s : LedgerState} {client : Nat}
    {cur : AccountInfo} (amount : ℚ) (tx : Nat)
    (h : lookupA s.accounts client = some cur) :
    (handle_deposit s amount client tx).accounts =
      insertA s.accounts client
        ⟨cur.available + amount, cur.held,
         cur.held + cur.available + amount, false⟩ := by
  simp [handle_deposit, h]

lemma handle_deposit_lookupTx (s : LedgerState) (amount : ℚ)
    (client tx : Nat) :
    lookupTx (handle_deposit s amount client tx) client tx =
      some ⟨amount, true, false⟩ := by
  cases hr : lookupA s.transaction_status client with
  | none =>
    simp [handle_deposit, lookupTx, hr, lookupA_insertA, lookupA]
  | some m =>
    simp [handle_deposit, lookupTx, hr, lookupA_insertA]

lemma handle_deposit_shape (s : LedgerState) (amount : ℚ) (client tx : Nat) :
    ∃ v X, v.locked = false ∧ balancedAccount v ∧
      handle_deposit s amount client tx =
        ⟨insertA s.accounts client v, insertA s.transaction_status client X⟩ := by
  cases ha : lookupA s.accounts client with
  | none =>
    cases hr : lookupA s.transaction_status client with
    | none =>
      exact ⟨⟨amount, 0, amount, false⟩, [(tx, ⟨amount, true, false⟩)], rfl,
        by simp [balancedAccount], by simp [handle_deposit, ha, hr]⟩
    | some m =>
      exact ⟨⟨amount, 0, amount, false⟩, insertA m tx ⟨amount, true, false⟩,
        rfl, by simp [balancedAccount], by simp [handle_deposit, ha, hr]⟩
  | some cur =>
    cases hr : lookupA s.transaction_status client with
    | none =>
      refine ⟨⟨cur.available + amount, cur.held,
        cur.held + cur.available + amount, false⟩,
        [(tx, ⟨amount, true, false⟩)], rfl, ?_,
        by simp [handle_deposit, ha, hr]⟩
      simp [balancedAccount]
      ring
    | some m =>
      refine ⟨⟨cur.available + amount, cur.held,
        cur.held + cur.available + amount, false⟩,
        insertA m tx ⟨amount, true, false⟩, rfl, ?_,
        by simp [handle_deposit, ha, hr]⟩
      simp [balancedAccount]
      ring

lemma handle_withdrawal_noacct {s : LedgerState} {client : Nat}
    (amount : ℚ) (tx : Nat) (h : lookupA s.accounts client = none) :
    handle_withdrawal s amount client tx = some s := by
  simp [handle_withdrawal, h]

lemma handle_withdrawal_insufficient {s : LedgerState} {client : Nat}
    {cur : AccountInfo} (amount : ℚ) (tx : Nat)
    (ha : lookupA s.accounts client = some cur)
    (h : ¬ cur.available - amount ≥ 0) :
    handle_withdrawal s amount client tx = some s := by
  simp [handle_withdrawal, ha, h]

lemma handle_withdrawal_eq {s : LedgerState} {client : Nat}
    {cur : AccountInfo} {m : List (Nat × TransactionStatus)}
    (amount : ℚ) (tx : Nat)
    (ha : lookupA s.accounts client = some cur)
    (hge : cur.available - amount ≥ 0)
    (hm : lookupA s.transaction_status client = some m) :
    handle_withdrawal s amount client tx =
      some ⟨insertA s.accounts client
              ⟨cur.available - amount, cur.held,
               cur.held + cur.available - amount, false⟩,
            insertA s.transaction_status client
              (insertA m tx ⟨amount, false, false⟩)⟩ := by
  simp [handle_withdrawal, ha, hm, hge]

lemma handle_dispute_noop {s : LedgerState} {client tx : Nat}
    (h : does_transaction_exist_without_dispute tx
      (lookupA s.transaction_status client) = false) :
    handle_dispute s client tx = some s := by
  simp [handle_dispute, h]

lemma handle_dispute_eq {s : LedgerState} {client tx : Nat}
    {m : List (Nat × TransactionStatus)} {e : TransactionStatus}
    {cur : AccountInfo}
    (hm : lookupA s.transaction_status client = some m)
    (he : lookupA m tx = some e) (hd : e.dispute = false)
    (ha : lookupA s.accounts client = some cur) :
    handle_dispute s client tx =
      some ⟨insertA s.accounts client
              ⟨cur.available - e.amount, cur.held + e.amount,
               cur.held + cur.available, false⟩,
            insertA s.transaction_status client
              (insertA m tx ⟨e.amount, e.deposit, true⟩)⟩ := by
  simp [handle_dispute, hm, ha, he, dtewd_true he hd]

lemma handle_resolve_noop {s : LedgerState} {client tx : Nat}
    (h : does_transaction_exist_with_dispute tx
      (lookupA s.transaction_status client) = false) :
    handle_resolve s client tx = some s := by
  simp [handle_resolve, h]

lemma handle_resolve_eq {s : LedgerState} {client tx : Nat}
    {m : List (Nat × TransactionStatus)} {e : TransactionStatus}
    {cur : AccountInfo}
    (hm : lookupA s.transaction_status client = some m)
    (he : lookupA m tx = some e) (hd : e.dispute = true)
    (ha : lookupA s.accounts client = some cur) :
    handle_resolve s client tx =
      some ⟨insertA s.accounts client
              ⟨cur.available + e.amount, cur.held - e.amount,
               cur.held + cur.available, false⟩,
            insertA s.transaction_status client
              (insertA m tx ⟨e.amount, e.deposit, true⟩)⟩ := by
  simp [handle_resolve, hm, ha, he, dtewdis_true he hd]

lemma handle_chargeback_noop {s : LedgerState} {client tx : Nat}
    (h : does_deposit_transaction_exist_with_dispute tx
      (lookupA s.transaction_status client) = false) :
    handle_chargeback s client tx = some s := by
  simp [handle_chargeback, h]

lemma handle_chargeback_eq {s : LedgerState} {client tx : Nat}
    {m : List (Nat × TransactionStatus)} {e : TransactionStatus}
    {cur : AccountInfo}
    (hm : lookupA s.transaction_status client = some m)
    (he : lookupA m tx = some e) (hd : e.dispute = true)
    (hdep : e.deposit = true) (ha : lookupA s.accounts client = some cur) :
    handle_chargeback s client tx =
      some ⟨insertA s.accounts client
              ⟨cur.available, cur.held - e.amount,
               cur.held + cur.available - e.amount, true⟩,
            eraseA s.transaction_status client⟩ := by
  simp [handle_chargeback, hm, ha, he, ddtewd_true he hd hdep]

lemma handle_record_invalid {s : LedgerState} {t : Transaction}
    (h : ¬ (t.client > 0 ∧ t.id > 0 ∧
      is_client_locked (lookupA s.accounts t.client) = false)) :
    handle_record s t = some s := by
  simp only [handle_record]
  rw [if_neg h]

lemma handle_record_valid {s : LedgerState} {t : Transaction}
    (h1 : t.client > 0) (h2 : t.id > 0)
    (h3 : is_client_locked (lookupA s.accounts t.client) = false) :
    handle_record s t =
      (if toLowerStr t.trans_type = "deposit" then
        if t.amount = 0 then some s
        else some (handle_deposit s t.amount t.client t.id)
      else if toLowerStr t.trans_type = "withdrawal" then
        if t.amount = 0 then some s
        else handle_withdrawal s t.amount t.client t.id
      else if toLowerStr t.trans_type = "dispute" then
        handle_dispute s t.client t.id
      else if toLowerStr t.trans_type = "resolve" then
        handle_resolve s t.client t.id
      else if toLowerStr t.trans_type = "chargeback" then
        handle_chargeback s t.client t.id
      else some s) := by
  simp only [handle_record]
  rw [if_pos ⟨h1, h2, h3⟩]

lemma handle_record_deposit {s : LedgerState} {t : Transaction}
    (h1 : t.client > 0) (h2 : t.id > 0)
    (h3 : is_client_locked (lookupA s.accounts t.client) = false)
    (hk : toLowerStr t.trans_type = "deposit") (hz : t.amount ≠ 0) :
    handle_record s t = some (handle_deposit s t.amount t.client t.id) := by
  rw [handle_record_valid h1 h2 h3, if_pos hk, if_neg hz]

lemma handle_record_withdrawal {s : LedgerState} {t : Transaction}
    (h1 : t.client > 0) (h2 : t.id > 0)
    (h3 : is_client_locked (lookupA s.accounts t.client) = false)
    (hk : toLowerStr t.trans_type = "withdrawal") (hz : t.amount ≠ 0) :
    handle_record s t = handle_withdrawal s t.amount t.client t.id := by
  rw [handle_record_valid h1 h2 h3, if_neg (by rw [hk]; decide), if_pos hk,
    if_neg hz]

lemma handle_record_dispute {s : LedgerState} {t : Transaction}
    (h1 : t.client > 0) (h2 : t.id > 0)
    (h3 : is_client_locked (lookupA s.accounts t.client) = false)
    (hk : toLowerStr t.trans_type = "dispute") :
    handle_record s t = handle_dispute s t.client t.id := by
  rw [handle_record_valid h1 h2 h3, if_neg (by rw [hk]; decide),
    if_neg (by rw [hk]; decide), if_pos hk]

lemma handle_record_resolve {s : LedgerState} {t : Transaction}
    (h1 : t.client > 0) (h2 : t.id > 0)
    (h3 : is_client_locked (lookupA s.accounts t.client) = false)
    (hk : toLowerStr t.trans_type = "resolve") :
    handle_record s t = handle_resolve s t.client t.id := by
  rw [handle_record_valid h1 h2 h3, if_neg (by rw [hk]; decide),
    if_neg (by rw [hk]; decide), if_neg (by rw [hk]; decide), if_pos hk]

lemma handle_record_chargeback {s : LedgerState} {t : Transaction}
    (h1 : t.client > 0) (h2 : t.id > 0)
    (h3 : is_client_locked (lookupA s.accounts t.client) = false)
    (hk : toLowerStr t.trans_type = "chargeback") :
    handle_record s t = handle_chargeback s t.client t.id := by
  rw [handle_record_valid h1 h2 h3, if_neg (by rw [hk]; decide),
    if_neg (by rw [hk]; decide), if_neg (by rw [hk]; decide),
    if_neg (by rw [hk]; decide), if_pos hk]

lemma handle_record_unknown {s : LedgerState} {t : Transaction}
    (h1 : t.client > 0) (h2 : t.id > 0)
    (h3 : is_client_locked (lookupA s.accounts t.client) = false)
    (k1 : toLowerStr t.trans_type ≠ "deposit")
    (k2 : toLowerStr t.trans_type ≠ "withdrawal")
    (k3 : toLowerStr t.trans_type ≠ "dispute")
    (k4 : toLowerStr t.trans_type ≠ "resolve")
    (k5 : toLowerStr t.trans_type ≠ "chargeback") :
    handle_record s t = some s := by
  rw [handle_record_valid h1 h2 h3, if_neg k1, if_neg k2, if_neg k3,
    if_neg k4, if_neg k5]

lemma handle_record_zero_amount {s : LedgerState} {t : Transaction}
    (hk : toLowerStr t.trans_type = "deposit" ∨
      toLowerStr t.trans_type = "withdrawal")
    (hz : t.amount = 0) :
    handle_record s t = some s := by
  by_cases hvalid : t.client > 0 ∧ t.id > 0 ∧
      is_client_locked (lookupA s.accounts t.client) = false
  · obtain ⟨h1, h2, h3⟩ := hvalid
    rw [handle_record_valid h1 h2 h3]
    cases hk with
    | inl h => rw [if_pos h, if_pos hz]
    | inr h => rw [if_neg (by rw [h]; decide), if_pos h, if_pos hz]
  · exact handle_record_invalid hvalid

lemma balancedAccounts_insertA {l : List (Nat × AccountInfo)} {k : Nat}
    {v : AccountInfo} (h : balancedAccounts l) (hv : balancedAccount v) :
    balancedAccounts (insertA l k v) := by
  intro c a hc
  rw [lookupA_insertA] at hc
  by_cases hck : c = k
  · rw [if_pos hck] at hc
    injection hc with hva
    exact hva ▸ hv
  · rw [if_neg hck] at hc
    exact h c a hc

/-- Every successful handle_record step either leaves the state unchanged
or rewrites the touched client with a balanced account, inserting into or
erasing the registry for that client. -/
lemma handle_record_struct {s s' : LedgerState} {t : Transaction}
    (h : handle_record s t = some s') :
    s' = s ∨
    (∃ v X, v.locked = false ∧ balancedAccount v ∧
      s' = ⟨insertA s.accounts t.client v,
            insertA s.transaction_status t.client X⟩) ∨
    (∃ v, v.locked = true ∧ balancedAccount v ∧
      s' = ⟨insertA s.accounts t.client v,
            eraseA s.transaction_status t.client⟩) := by
  by_cases hvalid : t.client > 0 ∧ t.id > 0 ∧
      is_client_locked (lookupA s.accounts t.client) = false
  case neg =>
    rw [handle_record_invalid hvalid] at h
    injection h with h
    exact Or.inl h.symm
  case pos =>
  obtain ⟨h1, h2, h3⟩ := hvalid
  by_cases hk1 : toLowerStr t.trans_type = "deposit"
  · by_cases hz : t.amount = 0
    · rw [handle_record_zero_amount (Or.inl hk1) hz] at h
      injection h with h
      exact Or.inl h.symm
    · rw [handle_record_deposit h1 h2 h3 hk1 hz] at h
      injection h with h
      obtain ⟨v, X, hvl, hvb, hshape⟩ :=
        handle_deposit_shape s t.amount t.client t.id
      exact Or.inr (Or.inl ⟨v, X, hvl, hvb, h ▸ hshape⟩)
  by_cases hk2 : toLowerStr t.trans_type = "withdrawal"
  · by_cases hz : t.amount = 0
    · rw [handle_record_zero_amount (Or.inr hk2) hz] at h
      injection h with h
      exact Or.inl h.symm
    · rw [handle_record_withdrawal h1 h2 h3 hk2 hz] at h
      cases ha : lookupA s.accounts t.client with
      | none =>
        rw [handle_withdrawal_noacct t.amount t.id ha] at h
        injection h with h
        exact Or.inl h.symm
      | some cur =>
        by_cases hge : cur.available - t.amount ≥ 0
        · cases hm : lookupA s.transaction_status t.client with
          | none =>
            simp [handle_withdrawal, ha, hge, hm] at h
          | some m =>
            rw [handle_withdrawal_eq t.amount t.id ha hge hm] at h
            injection h with h
            refine Or.inr (Or.inl ⟨_, _, rfl, ?_, h.symm⟩)
            simp [balancedAccount]
            ring
        · rw [handle_withdrawal_insufficient t.amount t.id ha hge] at h
          injection h with h
          exact Or.inl h.symm
  by_cases hk3 : toLowerStr t.trans_type = "dispute"
  · rw [handle_record_dispute h1 h2 h3 hk3] at h
    cases hgb : does_transaction_exist_without_dispute t.id
        (lookupA s.transaction_status t.client) with
    | false =>
      rw [handle_dispute_noop hgb] at h
      injection h with h
      exact Or.inl h.symm
    | true =>
      obtain ⟨m, e, hm, he, hd⟩ := dtewd_elim hgb
      cases ha : lookupA s.accounts t.client with
      | none =>
        rw [hm] at hgb
        simp [handle_dispute, hm, hgb, ha] at h
      | some cur =>
        rw [handle_dispute_eq hm he hd ha] at h
        injection h with h
        refine Or.inr (Or.inl ⟨_, _, rfl, ?_, h.symm⟩)
        simp [balancedAccount]
        ring
  by_cases hk4 : toLowerStr t.trans_type = "resolve"
  · rw [handle_record_resolve h1 h2 h3 hk4] at h
    cases hgb : does_transaction_exist_with_dispute t.id
        (lookupA s.transaction_status t.client) with
    | false =>
      rw [handle_resolve_noop hgb] at h
      injection h with h
      exact Or.inl h.symm
    | true =>
      obtain ⟨m, e, hm, he, hd⟩ := dtewdis_elim hgb
      cases ha : lookupA s.accounts t.client with
      | none =>
        rw [hm] at hgb
        simp [handle_resolve, hm, hgb, ha] at h
      | some cur =>
        rw [handle_resolve_eq hm he hd ha] at h
        injection h with h
        refine Or.inr (Or.inl ⟨_, _, rfl, ?_, h.symm⟩)
        simp [balancedAccount]
        ring
  by_cases hk5 : toLowerStr t.trans_type = "chargeback"
  · rw [handle_record_chargeback h1 h2 h3 hk5] at h
    cases hgb : does_deposit_transaction_exist_with_dispute t.id
        (lookupA s.transaction_status t.client) with
    | false =>
      rw [handle_chargeback_noop hgb] at h
      injection h with h
      exact Or.inl h.symm
    | true =>
      obtain ⟨m, e, hm, he, hd, hdep⟩ := ddtewd_elim hgb
      cases ha : lookupA s.accounts t.client with
      | none =>
        rw [hm] at hgb
        simp [handle_chargeback, hm, hgb, ha] at h
      | some cur =>
        rw [handle_chargeback_eq hm he hd hdep ha] at h
        injection h with h
        refine Or.inr (Or.inr ⟨_, rfl, ?_, h.symm⟩)
        simp [balancedAccount]
        ring
  rw [handle_record_unknown h1 h2 h3 hk1 hk2 hk3 hk4 hk5] at h
  injection h with h
  exact Or.inl h.symm

lemma balanced_step {s s' : LedgerState} {t : Transaction}
    (hb : balancedAccounts s.accounts) (h : handle_record s t = some s') :
    balancedAccounts s'.accounts := by
  rcases handle_record_struct h with hs | ⟨v, X, _, hvb, hs⟩ | ⟨v, _, hvb, hs⟩
  · exact hs ▸ hb
  · exact hs ▸ balancedAccounts_insertA hb hvb
  · exact hs ▸ balancedAccounts_insertA hb hvb

lemma aligned_insert_insert {s : LedgerState} {c : Nat} {v : AccountInfo}
    {X : List (Nat × TransactionStatus)} (h : alignedState s) :
    alignedState ⟨insertA s.accounts c v, insertA s.transaction_status c X⟩ := by
  constructor
  · intro c2 h2
    simp only [lookupA_insertA] at h2 ⊢
    by_cases hc : c2 = c
    · simp [hc]
    · rw [if_neg hc] at h2 ⊢
      exact h.1 c2 h2
  · intro c2 a h2 hl
    simp only [lookupA_insertA] at h2 ⊢
    by_cases hc : c2 = c
    · simp [hc]
    · rw [if_neg hc] at h2 ⊢
      exact h.2 c2 a h2 hl

lemma aligned_insert_erase {s : LedgerState} {c : Nat} {v : AccountInfo}
    (hv : v.locked = true) (h : alignedState s) :
    alignedState ⟨insertA s.accounts c v, eraseA s.transaction_status c⟩ := by
  constructor
  · intro c2 h2
    simp only [lookupA_eraseA] at h2
    by_cases hc : c2 = c
    · rw [if_pos hc] at h2
      simp at h2
    · rw [if_neg hc] at h2
      simp only [lookupA_insertA]
      rw [if_neg hc]
      exact h.1 c2 h2
  · intro c2 a h2 hl
    simp only [lookupA_insertA] at h2
    by_cases hc : c2 = c
    · rw [if_pos hc] at h2
      injection h2 with h2
      rw [← h2] at hl
      rw [hv] at hl
      cases hl
    · rw [if_neg hc] at h2
      simp only [lookupA_eraseA]
      rw [if_neg hc]
      exact h.2 c2 a h2 hl

lemma aligned_step {s s' : LedgerState} {t : Transaction}
    (ha : alignedState s) (h : handle_record s t = some s') :
    alignedState s' := by
  rcases handle_record_struct h with hs | ⟨v, X, _, _, hs⟩ | ⟨v, hvl, _, hs⟩
  · exact hs ▸ ha
  · exact hs ▸ aligned_insert_insert ha
  · exact hs ▸ aligned_insert_erase hvl ha

/-- On an aligned state no unwrap in any handler can fail: handle_record
always returns a state rather than a panic. -/
lemma handle_record_total (s : LedgerState) (t : Transaction)
    (hal : alignedState s) : ∃ s', handle_record s t = some s' := by
  by_cases hvalid : t.client > 0 ∧ t.id > 0 ∧
      is_client_locked (lookupA s.accounts t.client) = false
  case neg => exact ⟨s, handle_record_invalid hvalid⟩
  case pos =>
  obtain ⟨h1, h2, h3⟩ := hvalid
  by_cases hk1 : toLowerStr t.trans_type = "deposit"
  · by_cases hz : t.amount = 0
    · exact ⟨s, handle_record_zero_amount (Or.inl hk1) hz⟩
    · exact ⟨_, handle_record_deposit h1 h2 h3 hk1 hz⟩
  by_cases hk2 : toLowerStr t.trans_type = "withdrawal"
  · by_cases hz : t.amount = 0
    · exact ⟨s, handle_record_zero_amount (Or.inr hk2) hz⟩
    · rw [handle_record_withdrawal h1 h2 h3 hk2 hz]
      cases ha : lookupA s.accounts t.client with
      | none => exact ⟨s, handle_withdrawal_noacct t.amount t.id ha⟩
      | some cur =>
        by_cases hge : cur.available - t.amount ≥ 0
        · have hlock : cur.locked = false := by
            rw [ha] at h3
            simpa [is_client_locked] using h3
          have hsub := hal.2 t.client cur ha hlock
          cases hm : lookupA s.transaction_status t.client with
          | none =>
            rw [hm] at hsub
            simp at hsub
          | some m =>
            exact ⟨_, handle_withdrawal_eq t.amount t.id ha hge hm⟩
        · exact ⟨s, handle_withdrawal_insufficient t.amount t.id ha hge⟩
  by_cases hk3 : toLowerStr t.trans_type = "dispute"
  · rw [handle_record_dispute h1 h2 h3 hk3]
    cases hgb : does_transaction_exist_without_dispute t.id
        (lookupA s.transaction_status t.client) with
    | false => exact ⟨s, handle_dispute_noop hgb⟩
    | true =>
      obtain ⟨m, e, hm, he, hd⟩ := dtewd_elim hgb
      have hacct : (lookupA s.accounts t.client).isSome = true :=
        hal.1 t.client (by rw [hm]; rfl)
      cases ha : lookupA s.accounts t.client with
      | none =>
        rw [ha] at hacct
        cases hacct
      | some cur => exact ⟨_, handle_dispute_eq hm he hd ha⟩
  by_cases hk4 : toLowerStr t.trans_type = "resolve"
  · rw [handle_record_resolve h1 h2 h3 hk4]
    cases hgb : does_transaction_exist_with_dispute t.id
        (lookupA s.transaction_status t.client) with
    | false => exact ⟨s, handle_resolve_noop hgb⟩
    | true =>
      obtain ⟨m, e, hm, he, hd⟩ := dtewdis_elim hgb
      have hacct : (lookupA s.accounts t.client).isSome = true :=
        hal.1 t.client (by rw [hm]; rfl)
      cases ha : lookupA s.accounts t.client with
      | none =>
        rw [ha] at hacct
        cases hacct
      | some cur => exact ⟨_, handle_resolve_eq hm he hd ha⟩
  by_cases hk5 : toLowerStr t.trans_type = "chargeback"
  · rw [handle_record_chargeback h1 h2 h3 hk5]
    cases hgb : does_deposit_transaction_exist_with_dispute t.id
        (lookupA s.transaction_status t.client) with
    | false => exact ⟨s, handle_chargeback_noop hgb⟩
    | true =>
      obtain ⟨m, e, hm, he, hd, hdep⟩ := ddtewd_elim hgb
      have hacct : (lookupA s.accounts t.client).isSome = true :=
        hal.1 t.client (by rw [hm]; rfl)
      cases ha : lookupA s.accounts t.client with
      | none =>
        rw [ha] at hacct
        cases hacct
      | some cur => exact ⟨_, handle_chargeback_eq hm he hd hdep ha⟩
  exact ⟨s, handle_record_unknown h1 h2 h3 hk1 hk2 hk3 hk4 hk5⟩

lemma foldl_good : ∀ (ts : List Transaction) (s0 : LedgerState),
    balancedAccounts s0.accounts → alignedState s0 →
    ∃ s, List.foldl stepRecord (some s0) ts = some s ∧
      balancedAccounts s.accounts ∧ alignedState s := by
  intro ts
  induction ts with
  | nil =>
    intro s0 hb hal
    exact ⟨s0, rfl, hb, hal⟩
  | cons t rest ih =>
    intro s0 hb hal
    obtain ⟨s1, h1⟩ := handle_record_total s0 t hal
    have hstep : stepRecord (some s0) t = some s1 := by
      simp [stepRecord, h1]
    obtain ⟨s, hs, hsb, hsal⟩ :=
      ih s1 (balanced_step hb h1) (aligned_step hal h1)
    exact ⟨s, by rw [List.foldl_cons, hstep]; exact hs, hsb, hsal⟩

lemma initial_balanced : balancedAccounts initialState.accounts := by
  intro c a h
  cases h

lemma initial_aligned : alignedState initialState := by
  constructor
  · intro c h
    simp [initialState, lookupA] at h
  · intro c a h
    cases h

/-- The fold from the empty maps always yields a state, and that state
is balanced and aligned. -/
lemma processAll_good (ts : List Transaction) :
    ∃ s, processAll ts = some s ∧ balancedAccounts s.accounts ∧
      alignedState s :=
  foldl_good ts initialState initial_balanced initial_aligned

/-- A client with five available and an empty registry sub-map. -/
def exactBalanceState : LedgerState :=
  ⟨[(1, ⟨5, 0, 5, false⟩)], [(1, [])]⟩

/-- The state after deposit(client 1, tx 1, amount 5) from empty maps. -/
def depositOneState : LedgerState :=
  ⟨[(1, ⟨5, 0, 5, false⟩)], [(1, [(1, ⟨5, true, false⟩)])]⟩

/-- The state after deposit(1, 1, 5) then dispute(1, 1). -/
def disputedState : LedgerState :=
  ⟨[(1, ⟨0, 5, 5, false⟩)], [(1, [(1, ⟨5, true, true⟩)])]⟩

/-- The state after deposit(1, 1, 5), dispute(1, 1), resolve(1, 1): the
funds are back in available and the registry entry is still marked
disputed. -/
def resolvedOnceState : LedgerState :=
  ⟨[(1, ⟨5, 0, 5, false⟩)], [(1, [(1, ⟨5, true, true⟩)])]⟩

/-- Claim C1: for every account in the ledger, after every record
processed by handle_record starting from the empty maps, the total field
equals available plus held. -/
theorem claim1_total_eq_available_plus_held (ts : List Transaction)
    (s : LedgerState) (c : Nat) (a : AccountInfo)
    (h : processAll ts = some s) (ha : lookupA s.accounts c = some a) :
    a.total = a.available + a.held := by
  obtain ⟨s2, hs2, hb, _⟩ := processAll_good ts
  rw [h] at hs2
  injection hs2 with hs2
  exact hb c a (hs2 ▸ ha)

/-- Witness for C1 at the stream consisting of one deposit of five. -/
theorem claim1_witness :
    processAll [⟨"deposit", 1, 1, 5⟩] = some depositOneState ∧
    lookupA depositOneState.accounts 1 = some ⟨5, 0, 5, false⟩ ∧
    (⟨5, 0, 5, false⟩ : AccountInfo).total =
      (⟨5, 0, 5, false⟩ : AccountInfo).available +
      (⟨5, 0, 5, false⟩ : AccountInfo).held :=
  ⟨by decide, by decide,
    claim1_total_eq_available_plus_held [⟨"deposit", 1, 1, 5⟩]
      depositOneState 1 ⟨5, 0, 5, false⟩ (by decide) (by decide)⟩

/-- Counterexample to C2 as stated: a withdrawal of the whole available
balance has available - amount = 0, not > 0, yet the code accepts it,
mutates the account to zero and records a registry entry.  The source
guard is >= 0, and the repository test for a withdrawal of the entire
balance expects success. -/
theorem claim2_counterexample :
    ¬ ((5 : ℚ) - 5 > 0) ∧
    handle_withdrawal exactBalanceState 5 1 2 =
      some ⟨[(1, ⟨0, 0, 0, false⟩)], [(1, [(2, ⟨5, false, false⟩)])]⟩ ∧
    handle_withdrawal exactBalanceState 5 1 2 ≠ some exactBalanceState := by
  refine ⟨by norm_num, ?_, ?_⟩
  · norm_num [handle_withdrawal, exactBalanceState, lookupA, insertA]
  · norm_num [handle_withdrawal, exactBalanceState, lookupA, insertA]

/-- Claim C2 amended: for an existing account with a registry sub-map,
a withdrawal of A succeeds iff available - A >= 0 (a withdrawal that
exactly zeroes the available balance is accepted); on success it reduces
available and total by exactly A and records a registry entry; on
failure it leaves the state unchanged. -/
theorem claim2_withdrawal_boundary (s : LedgerState) (c tx : Nat) (A : ℚ)
    (acct : AccountInfo) (m : List (Nat × TransactionStatus))
    (ha : lookupA s.accounts c = some acct)
    (hm : lookupA s.transaction_status c = some m)
    (hbal : acct.total = acct.available + acct.held) :
    (acct.available - A ≥ 0 →
      ∃ s', handle_withdrawal s A c tx = some s' ∧
        lookupA s'.accounts c =
          some ⟨acct.available - A, acct.held, acct.total - A, false⟩ ∧
        lookupTx s' c tx = some ⟨A, false, false⟩) ∧
    (¬ acct.available - A ≥ 0 → handle_withdrawal s A c tx = some s) := by
  constructor
  · intro hge
    refine ⟨_, handle_withdrawal_eq A tx ha hge hm, ?_, ?_⟩
    · have htot : acct.held + acct.available - A = acct.total - A := by
        rw [hbal]; ring
      simp [lookupA_insertA, htot]
    · simp [lookupTx, lookupA_insertA]
  · intro hlt
    exact handle_withdrawal_insufficient A tx ha hlt

/-- Witness for C2 amended: withdrawing three of five succeeds. -/
theorem claim2_witness :
    ∃ s', handle_withdrawal exactBalanceState 3 1 2 = some s' ∧
      lookupA s'.accounts 1 = some ⟨(5 : ℚ) - 3, 0, (5 : ℚ) - 3, false⟩ ∧
      lookupTx s' 1 2 = some ⟨3, false, false⟩ :=
  (claim2_withdrawal_boundary exactBalanceState 1 2 3 ⟨5, 0, 5, false⟩ []
    (by decide) (by decide) (by norm_num)).1 (by norm_num)

/-- Claim C3: a record for a client whose account is locked changes
nothing: handle_record returns the state unchanged, so the account and
the registry sub-map of that client are untouched. -/
theorem claim3_locked_account_frozen (s : LedgerState) (t : Transaction)
    (acct : AccountInfo) (ha : lookupA s.accounts t.client = some acct)
    (hl : acct.locked = true) : handle_record s t = some s := by
  apply handle_record_invalid
  rintro ⟨-, -, h3⟩
  rw [ha] at h3
  simp [is_client_locked, hl] at h3

/-- Witness for C3: a deposit for a locked client is dropped. -/
theorem claim3_witness :
    handle_record ⟨[(1, ⟨0, 0, 0, true⟩)], []⟩ ⟨"deposit", 1, 3, 10⟩ =
      some ⟨[(1, ⟨0, 0, 0, true⟩)], []⟩ :=
  claim3_locked_account_frozen ⟨[(1, ⟨0, 0, 0, true⟩)], []⟩
    ⟨"deposit", 1, 3, 10⟩ ⟨0, 0, 0, true⟩ (by decide) (by decide)

/-- Counterexample to C4 as stated: a deposit of minus three on an
account with five available leaves available two, which is not a strict
increase. -/
theorem claim4_counterexample :
    lookupA exactBalanceState.accounts 1 = some ⟨5, 0, 5, false⟩ ∧
    lookupA (handle_deposit exactBalanceState (-3) 1 2).accounts 1 =
      some ⟨2, 0, 2, false⟩ ∧
    ¬ ((5 : ℚ) < 2) := by
  refine ⟨by decide, ?_, by norm_num⟩
  norm_num [handle_deposit, exactBalanceState, lookupA, insertA]

/-- Claim C4 amended: for every deposit, handle_deposit never fails: it
changes available and total by exactly the amount (a strict increase
exactly when the amount is positive), creates the account with
available = total = amount, held = 0, locked = false when absent, and
always records the registry entry (amount, is_deposit, not disputed). -/
theorem claim4_deposit_effect (s : LedgerState) (amount : ℚ) (c tx : Nat) :
    (lookupA s.accounts c = none →
      lookupA (handle_deposit s amount c tx).accounts c =
        some ⟨amount, 0, amount, false⟩) ∧
    (∀ acct, lookupA s.accounts c = some acct →
      lookupA (handle_deposit s amount c tx).accounts c =
        some ⟨acct.available + amount, acct.held,
          acct.held + acct.available + amount, false⟩ ∧
      (0 < amount → acct.available < acct.available + amount ∧
        acct.held + acct.available < acct.held + acct.available + amount)) ∧
    lookupTx (handle_deposit s amount c tx) c tx =
      some ⟨amount, true, false⟩ := by
  refine ⟨?_, ?_, handle_deposit_lookupTx s amount c tx⟩
  · intro h
    rw [handle_deposit_accounts_new amount tx h, lookupA_insertA, if_pos rfl]
  · intro acct h
    constructor
    · rw [handle_deposit_accounts_old amount tx h, lookupA_insertA,
        if_pos rfl]
    · intro hpos
      constructor <;> linarith

/-- Witness for C4 amended: a first deposit of seven creates the
account and the registry entry. -/
theorem claim4_witness :
    lookupA (handle_deposit initialState 7 1 1).accounts 1 =
      some ⟨7, 0, 7, false⟩ ∧
    lookupTx (handle_deposit initialState 7 1 1) 1 1 =
      some ⟨7, true, false⟩ :=
  ⟨(claim4_deposit_effect initialState 7 1 1).1 rfl,
   (claim4_deposit_effect initialState 7 1 1).2.2⟩

/-- Claim C5: a dispute mutates state only when a registry entry for the
pair exists with disputed false; then it moves exactly the entry amount
from available to held, leaves total unchanged, sets locked to false,
rewrites the entry as disputed; otherwise it is a no-op, and repeating
the dispute on the resulting state changes nothing. -/
theorem claim5_dispute_effect (s : LedgerState) (c tx : Nat) :
    (∀ m e acct, lookupA s.transaction_status c = some m →
      lookupA m tx = some e → e.dispute = false →
      lookupA s.accounts c = some acct →
      acct.total = acct.available + acct.held →
      ∃ s', handle_dispute s c tx = some s' ∧
        lookupA s'.accounts c =
          some ⟨acct.available - e.amount, acct.held + e.amount,
            acct.total, false⟩ ∧
        lookupTx s' c tx = some ⟨e.amount, e.deposit, true⟩ ∧
        handle_dispute s' c tx = some s') ∧
    (does_transaction_exist_without_dispute tx
        (lookupA s.transaction_status c) = false →
      handle_dispute s c tx = some s) := by
  constructor
  · intro m e acct hm he hd ha hbal
    refine ⟨_, handle_dispute_eq hm he hd ha, ?_, ?_, ?_⟩
    · have htot : acct.held + acct.available = acct.total := by
        rw [hbal]; ring
      simp [lookupA_insertA, htot]
    · simp [lookupTx, lookupA_insertA]
    · apply handle_dispute_noop
      have hm2 : lookupA
          (insertA s.transaction_status c
            (insertA m tx ⟨e.amount, e.deposit, true⟩)) c =
          some (insertA m tx ⟨e.amount, e.deposit, true⟩) := by
        simp [lookupA_insertA]
      rw [hm2]
      simp [does_transaction_exist_without_dispute, does_transaction_exist,
        lookupA_insertA]
  · exact handle_dispute_noop

/-- Witness for C5 at the state reached by a single deposit of five. -/
theorem claim5_witness :
    ∃ s', handle_dispute depositOneState 1 1 = some s' ∧
      lookupA s'.accounts 1 = some ⟨(5 : ℚ) - 5, 0 + 5, 5, false⟩ ∧
      lookupTx s' 1 1 = some ⟨5, true, true⟩ ∧
      handle_dispute s' 1 1 = some s' :=
  (claim5_dispute_effect depositOneState 1 1).1 [(1, ⟨5, true, false⟩)]
    ⟨5, true, false⟩ ⟨5, 0, 5, false⟩ (by decide) (by decide) rfl
    (by decide) (by norm_num)

/-- Claim C6: a chargeback mutates state only when a registry entry for
the pair exists with disputed true and is_deposit true; then it reduces
held and total by the entry amount, leaves available unchanged, locks
the account, and discards the whole registry sub-map of the client, so
any later chargeback for that client is a no-op; with an entry whose
is_deposit is false, or when the guard fails, nothing changes. -/
theorem claim6_chargeback_effect (s : LedgerState) (c tx : Nat) :
    (∀ m e acct, lookupA s.transaction_status c = some m →
      lookupA m tx = some e → e.dispute = true → e.deposit = true →
      lookupA s.accounts c = some acct →
      acct.total = acct.available + acct.held →
      ∃ s', handle_chargeback s c tx = some s' ∧
        lookupA s'.accounts c =
          some ⟨acct.available, acct.held - e.amount,
            acct.total - e.amount, true⟩ ∧
        lookupA s'.transaction_status c = none ∧
        (∀ tx2, handle_chargeback s' c tx2 = some s')) ∧
    (∀ m e, lookupA s.transaction_status c = some m →
      lookupA m tx = some e → e.deposit = false →
      handle_chargeback s c tx = some s) ∧
    (does_deposit_transaction_exist_with_dispute tx
        (lookupA s.transaction_status c) = false →
      handle_chargeback s c tx = some s) := by
  refine ⟨?_, ?_, handle_chargeback_noop⟩
  · intro m e acct hm he hd hdep ha hbal
    refine ⟨_, handle_chargeback_eq hm he hd hdep ha, ?_, ?_, ?_⟩
    · have htot : acct.held + acct.available - e.amount =
          acct.total - e.amount := by
        rw [hbal]; ring
      simp [lookupA_insertA, htot]
    · simp [lookupA_eraseA]
    · intro tx2
      apply handle_chargeback_noop
      have hm2 : lookupA (eraseA s.transaction_status c) c = none := by
        simp [lookupA_eraseA]
      rw [hm2]
      rfl
  · intro m e hm he hdep
    apply handle_chargeback_noop
    rw [hm]
    simp [does_deposit_transaction_exist_with_dispute, he, hdep]

/-- Witness for C6 at the state reached by deposit(1,1,5) then
dispute(1,1). -/
theorem claim6_witness :
    ∃ s', handle_chargeback disputedState 1 1 = some s' ∧
      lookupA s'.accounts 1 = some ⟨0, (5 : ℚ) - 5, (5 : ℚ) - 5, true⟩ ∧
      lookupA s'.transaction_status 1 = none ∧
      (∀ tx2, handle_chargeback s' 1 tx2 = some s') :=
  (claim6_chargeback_effect disputedState 1 1).1 [(1, ⟨5, true, true⟩)]
    ⟨5, true, true⟩ ⟨0, 5, 5, false⟩ (by decide) (by decide) rfl rfl
    (by decide) (by norm_num)

/-- Counterexample to C7 as stated: after a first resolve the registry
entry is still marked disputed, and a second resolve moves the amount
from held to available again: available goes from five to ten and held
from zero to minus five, so the account state is not unchanged. -/
theorem claim7_counterexample :
    handle_resolve disputedState 1 1 = some resolvedOnceState ∧
    handle_resolve resolvedOnceState 1 1 =
      some ⟨[(1, ⟨10, -5, 5, false⟩)], [(1, [(1, ⟨5, true, true⟩)])]⟩ ∧
    lookupA (⟨[(1, ⟨10, -5, 5, false⟩)],
        [(1, [(1, ⟨5, true, true⟩)])]⟩ : LedgerState).accounts 1 ≠
      lookupA resolvedOnceState.accounts 1 := by
  refine ⟨?_, ?_, ?_⟩
  · norm_num [handle_resolve, disputedState, resolvedOnceState, lookupA,
      insertA, does_transaction_exist_with_dispute, does_transaction_exist]
  · norm_num [handle_resolve, resolvedOnceState, lookupA, insertA,
      does_transaction_exist_with_dispute, does_transaction_exist]
  · norm_num [resolvedOnceState, lookupA]

/-- Claim C7 amended: on a registry entry already marked disputed, a
repeated resolve is not a no-op: it moves the entry amount from held to
available once more; only total and the locked flag are unchanged, and
the entry stays disputed, so for a nonzero amount the account state
changes with every repetition. -/
theorem claim7_resolve_not_idempotent (s : LedgerState) (c tx : Nat)
    (m : List (Nat × TransactionStatus)) (e : TransactionStatus)
    (acct : AccountInfo) (hm : lookupA s.transaction_status c = some m)
    (he : lookupA m tx = some e) (hd : e.dispute = true)
    (ha : lookupA s.accounts c = some acct)
    (hbal : acct.total = acct.available + acct.held) :
    ∃ s', handle_resolve s c tx = some s' ∧
      lookupA s'.accounts c =
        some ⟨acct.available + e.amount, acct.held - e.amount,
          acct.total, false⟩ ∧
      lookupTx s' c tx = some ⟨e.amount, e.deposit, true⟩ ∧
      (e.amount ≠ 0 → lookupA s'.accounts c ≠ lookupA s.accounts c) := by
  refine ⟨_, handle_resolve_eq hm he hd ha, ?_, ?_, ?_⟩
  · have htot : acct.held + acct.available = acct.total := by
      rw [hbal]; ring
    simp [lookupA_insertA, htot]
  · simp [lookupTx, lookupA_insertA]
  · intro hne heq
    rw [ha] at heq
    simp only [lookupA_insertA, if_pos rfl] at heq
    injection heq with heq
    have hav : acct.available + e.amount = acct.available :=
      congrArg AccountInfo.available heq
    exact hne (by linarith)

/-- Witness for C7 amended, at the post-resolve state: the second
resolve moves five more from held to available. -/
theorem claim7_witness :
    ∃ s', handle_resolve resolvedOnceState 1 1 = some s' ∧
      lookupA s'.accounts 1 = some ⟨(5 : ℚ) + 5, 0 - 5, 5, false⟩ ∧
      lookupTx s' 1 1 = some ⟨5, true, true⟩ ∧
      ((5 : ℚ) ≠ 0 → lookupA s'.accounts 1 ≠
        lookupA resolvedOnceState.accounts 1) :=
  claim7_resolve_not_idempotent resolvedOnceState 1 1
    [(1, ⟨5, true, true⟩)] ⟨5, true, true⟩ ⟨5, 0, 5, false⟩
    (by decide) (by decide) rfl (by decide) (by norm_num)

/-- Counterexample to C8 as stated: a deposit record with nonzero ids,
an unlocked (absent) account and amount zero passes all three validator
checks, yet handle_record leaves the state unchanged, while dispatching
it to handle_deposit would have created an account, so the record was
dropped by a fourth check, not dispatched. -/
theorem claim8_counterexample :
    handle_record initialState ⟨"deposit", 1, 1, 0⟩ = some initialState ∧
    handle_deposit initialState 0 1 1 ≠ initialState ∧
    ¬ ((⟨"deposit", 1, 1, 0⟩ : Transaction).client = 0 ∨
       (⟨"deposit", 1, 1, 0⟩ : Transaction).id = 0 ∨
       is_client_locked (lookupA initialState.accounts 1) = true) := by
  refine ⟨by decide, by decide, by decide⟩

/-- Claim C8 amended: the three validator checks (zero client id, zero
tx id, locked account) reject a record of any kind with no state change
and no error; a record passing them is dispatched to the handler of its
lowercased kind, except that deposit and withdrawal records with amount
exactly zero are also dropped before their handler runs; unknown kinds
are ignored. -/
theorem claim8_validator_dispatch (s : LedgerState) (t : Transaction) :
    ((t.client = 0 ∨ t.id = 0 ∨
        is_client_locked (lookupA s.accounts t.client) = true) →
      handle_record s t = some s) ∧
    (t.client > 0 → t.id > 0 →
      is_client_locked (lookupA s.accounts t.client) = false →
      (toLowerStr t.trans_type = "deposit" →
        handle_record s t = if t.amount = 0 then some s
          else some (handle_deposit s t.amount t.client t.id)) ∧
      (toLowerStr t.trans_type = "withdrawal" →
        handle_record s t = if t.amount = 0 then some s
          else handle_withdrawal s t.amount t.client t.id) ∧
      (toLowerStr t.trans_type = "dispute" →
        handle_record s t = handle_dispute s t.client t.id) ∧
      (toLowerStr t.trans_type = "resolve" →
        handle_record s t = handle_resolve s t.client t.id) ∧
      (toLowerStr t.trans_type = "chargeback" →
        handle_record s t = handle_chargeback s t.client t.id) ∧
      (toLowerStr t.trans_type ≠ "deposit" →
        toLowerStr t.trans_type ≠ "withdrawal" →
        toLowerStr t.trans_type ≠ "dispute" →
        toLowerStr t.trans_type ≠ "resolve" →
        toLowerStr t.trans_type ≠ "chargeback" →
        handle_record s t = some s)) := by
  constructor
  · intro hrej
    apply handle_record_invalid
    rintro ⟨h1, h2, h3⟩
    rcases hrej with h0 | h0 | h0
    · rw [h0] at h1
      exact absurd h1 (by decide)
    · rw [h0] at h2
      exact absurd h2 (by decide)
    · rw [h0] at h3
      cases h3
  · intro h1 h2 h3
    refine ⟨?_, ?_, ?_, ?_, ?_, ?_⟩
    · intro hk
      rw [handle_record_valid h1 h2 h3, if_pos hk]
    · intro hk
      rw [handle_record_valid h1 h2 h3, if_neg (by rw [hk]; decide),
        if_pos hk]
    · exact handle_record_dispute h1 h2 h3
    · exact handle_record_resolve h1 h2 h3
    · exact handle_record_chargeback h1 h2 h3
    · exact handle_record_unknown h1 h2 h3

/-- Witness for C8 amended: a nonzero deposit for a fresh client is
dispatched to handle_deposit, and a record with client id zero is
rejected unchanged. -/
theorem claim8_witness :
    handle_record initialState ⟨"deposit", 1, 1, 7⟩ =
      (if (7 : ℚ) = 0 then some initialState
        else some (handle_deposit initialState 7 1 1)) ∧
    handle_record initialState ⟨"deposit", 0, 1, 7⟩ = some initialState :=
  ⟨((claim8_validator_dispatch initialState ⟨"deposit", 1, 1, 7⟩).2
      (by decide) (by decide) (by decide)).1 (by decide),
   (claim8_validator_dispatch initialState ⟨"deposit", 0, 1, 7⟩).1
      (Or.inl rfl)⟩

/-- Claim C9: every state reachable from the empty maps satisfies that a
registry entry implies an existing account and an unlocked account
implies a registry sub-map, hence no unwrap in any handler fails and
processing any stream returns a state rather than a panic. -/
theorem claim9_no_handler_panics (ts : List Transaction) :
    ∃ s, processAll ts = some s ∧
      (∀ c tx e, lookupTx s c tx = some e →
        (lookupA s.accounts c).isSome = true) ∧
      (∀ c a, lookupA s.accounts c = some a → a.locked = false →
        (lookupA s.transaction_status c).isSome = true) := by
  obtain ⟨s, hs, _, hal⟩ := processAll_good ts
  refine ⟨s, hs, ?_, hal.2⟩
  intro c tx e he
  apply hal.1
  unfold lookupTx at he
  cases hm : lookupA s.transaction_status c with
  | none =>
    rw [hm] at he
    cases he
  | some m => rfl

/-- Witness for C9 on a stream exercising deposit, dispute, withdrawal
and chargeback. -/
theorem claim9_witness :
    ∃ s, processAll [⟨"deposit", 1, 1, 5⟩, ⟨"dispute", 1, 1, 0⟩,
        ⟨"withdrawal", 2, 2, 3⟩, ⟨"chargeback", 1, 1, 0⟩] = some s ∧
      (∀ c tx e, lookupTx s c tx = some e →
        (lookupA s.accounts c).isSome = true) ∧
      (∀ c a, lookupA s.accounts c = some a → a.locked = false →
        (lookupA s.transaction_status c).isSome = true) :=
  claim9_no_handler_panics [⟨"deposit", 1, 1, 5⟩, ⟨"dispute", 1, 1, 0⟩,
    ⟨"withdrawal", 2, 2, 3⟩, ⟨"chargeback", 1, 1, 0⟩]

/-- Claim C10: a deposit or withdrawal record whose amount is exactly
zero never changes the state, whatever the ids and the lock status. -/
theorem claim10_zero_amount_noop (s : LedgerState) (t : Transaction)
    (hk : toLowerStr t.trans_type = "deposit" ∨
      toLowerStr t.trans_type = "withdrawal")
    (hz : t.amount = 0) : handle_record s t = some s :=
  handle_record_zero_amount hk hz

/-- Witness for C10: a zero-amount withdrawal for an existing unlocked
client with nonzero ids is dropped. -/
theorem claim10_witness :
    handle_record exactBalanceState ⟨"withdrawal", 1, 9, 0⟩ =
      some exactBalanceState :=
  claim10_zero_amount_noop exactBalanceState ⟨"withdrawal", 1, 9, 0⟩
    (Or.inr (by decide)) (by decide)

end OxidizedTransactions
